import Mathlib

/-!
# Verification of the boofuzz CLI orchestration layer (`boofuzz/cli.py`)

This development gives a shallow embedding of the option-resolution logic of
the `fuzz` command in `boofuzz/cli.py`: the test-case range parser, the
debugger-backend selection, the logger-sink assembly, the process-monitor
options and monitor-list construction, and the overall resolution pipeline
that builds the session configuration.  Python strings are modelled as
`String` / `List Char`; Python `None` as `Option.none`; a Python `float`
option value as `ℚ` (with Python truthiness `x ≠ 0`); fatal paths
(`sys.exit`) and uncaught exceptions as an `Except` error result.
-/

namespace Boofuzz

/-- Python `str.split(sep)` for a single-character separator, over the
character list of the string: split at every occurrence of `sep`, keeping
empty parts (so `"".split("-") = [""]`, `"a--b".split("-") = ["a","","b"]`). -/
def splitOnChar (sep : Char) : List Char → List (List Char)
  | [] => [[]]
  | c :: rest =>
    let r := splitOnChar sep rest
    if c = sep then [] :: r
    else
      match r with
      | h :: t => (c :: h) :: t
      | [] => [[c]]

/-- The split of any character list is nonempty (Python `split` always
yields at least one part). -/
theorem splitOnChar_ne_nil (sep : Char) (l : List Char) : splitOnChar sep l ≠ [] := by
  induction l with
  | nil => simp [splitOnChar]
  | cons c rest ih =>
    simp only [splitOnChar]
    split
    · simp
    · match h : splitOnChar sep rest with
      | [] => exact absurd h ih
      | x :: xs => simp

/-- Value of a decimal digit, `none` for a non-digit character. -/
def digitVal (c : Char) : Option Nat :=
  if '0' ≤ c ∧ c ≤ '9' then some (c.toNat - '0'.toNat) else none

/-- Parse a nonempty all-digit character list as a natural number
(most-significant digit first); `none` if empty or any character is not a
decimal digit. -/
def digitsToNat (l : List Char) : Option Nat :=
  match l with
  | [] => none
  | _ =>
    l.foldl
      (fun acc c =>
        match acc, digitVal c with
        | some n, some d => some (n * 10 + d)
        | _, _ => none)
      (some 0)

/-- Python `int(str)` conversion, modelled for an optional leading sign
followed by decimal digits.  (Python additionally strips surrounding
whitespace, accepts underscore digit separators and non-ASCII decimal
digits; none of those forms occur in the properties verified here.)
Returns `none` where Python raises `ValueError`. -/
def pyInt (l : List Char) : Option Int :=
  match l with
  | '-' :: rest => (digitsToNat rest).map fun n => -(n : Int)
  | '+' :: rest => (digitsToNat rest).map fun n => (n : Int)
  | _ => (digitsToNat l).map fun n => (n : Int)

/-- The test-case range parser, `cli.py` lines 171–185.

```python
if test_case_index is None:
    start = 1
    end = None
elif "-" in test_case_index:
    start, end = test_case_index.split("-")
    if not start: start = 1
    else:        start = int(start)
    if not end:  end = None
    else:        end = int(end)
else:
    start = end = int(test_case_index)
```

The Python membership test `"-" in s` holds exactly when `s.split("-")` has
at least two parts, and for a dash-free `s` the split is `[s]`; the
embedding therefore branches on the split result directly: two parts take
the `"-" in s` branch, one part takes the `else` branch (converting the
whole string, as Python does), and three or more parts model the
`ValueError` raised by the two-variable unpacking (`none`).  A failing
`int()` conversion is likewise `none`. -/
def parseTestCaseIndex (tci : Option String) : Option (Int × Option Int) :=
  match tci with
  | none => some (1, none)
  | some s =>
    match splitOnChar '-' s.data with
    | [a, b] =>
      match (if a.isEmpty then some (1 : Int) else pyInt a),
            (if b.isEmpty then some (none : Option Int) else (pyInt b).map some) with
      | some st, some en => some (st, en)
      | _, _ => none
    | [_] => (pyInt s.data).map fun n => (n, some n)
    | _ => none

/-- The three values of the `--stdout` choice option
(`click.Choice(["HIDE", "CAPTURE", "MIRROR"])`). -/
inductive StdoutMode where
  | hide
  | capture
  | mirror
deriving DecidableEq, Repr

/-- Whitespace for shell-word splitting. -/
def isShellWs (c : Char) : Bool :=
  c = ' ' ∨ c = '\t' ∨ c = '\n' ∨ c = '\r'

/-- Quoting state of the shell-word scanner. -/
inductive ShMode where
  | normal
  | single
  | double
deriving DecidableEq, Repr

/-- Modelled from the spec: `shlex.split` (Python standard library, not part
of this repository's sources) — "split into an argv vector using
shell-quoting rules".  Scanner over the character list: whitespace separates
words; `'...'` is literal; `"..."` allows backslash-escaped `"` and `\`;
elsewhere a backslash escapes the next character.  `cur` is the current word
(reversed) and `inWord` records whether a word is open (so `""` yields an
empty word). -/
def shlexAux : ShMode → List Char → List Char → Bool → List (List Char)
  | .normal, [], cur, inWord => if inWord then [cur.reverse] else []
  | .normal, c :: rest, cur, inWord =>
    if isShellWs c then
      if inWord then cur.reverse :: shlexAux .normal rest [] false
      else shlexAux .normal rest [] false
    else if c = '\'' then shlexAux .single rest cur true
    else if c = '"' then shlexAux .double rest cur true
    else if c = '\\' then
      match rest with
      | [] => shlexAux .normal [] cur inWord
      | d :: rest2 => shlexAux .normal rest2 (d :: cur) true
    else shlexAux .normal rest (c :: cur) true
  | .single, [], cur, _ => [cur.reverse]
  | .single, c :: rest, cur, inWord =>
    if c = '\'' then shlexAux .normal rest cur inWord
    else shlexAux .single rest (c :: cur) inWord
  | .double, [], cur, _ => [cur.reverse]
  | .double, c :: rest, cur, inWord =>
    if c = '"' then shlexAux .normal rest cur inWord
    else if c = '\\' then
      match rest with
      | [] => shlexAux .double [] (c :: cur) inWord
      | d :: rest2 =>
        if d = '"' ∨ d = '\\' then shlexAux .double rest2 (d :: cur) inWord
        else shlexAux .double rest2 (d :: c :: cur) inWord
    else shlexAux .double rest (c :: cur) inWord

/-- Modelled from the spec: `shlex.split(s)` — split a command line into an
argv vector by shell-quoting rules. -/
def shlexSplit (s : String) : List String :=
  (shlexAux .normal s.data [] false).map fun w => String.mk w

/-- The keyword arguments accumulated in the `procmon_options` dict,
`cli.py` lines 143–153.  Each `Option` field is `none` when the
corresponding key is absent from the dict. -/
structure ProcmonOptions where
  start_commands : Option (List (List String)) := none
  startup_wait : Option ℚ := none
  capture_output : Option Bool := none
  hide_output : Option Bool := none
deriving DecidableEq, Repr

/-- Construction of `procmon_options`, `cli.py` lines 143–153.

```python
procmon_options = {}
if target_cmd is not None:
    procmon_options["start_commands"] = [shlex.split(target_cmd)]
if target_start_wait:
    procmon_options["startup_wait"] = target_start_wait
if stdout == "CAPTURE":
    procmon_options["capture_output"] = True
elif stdout == "HIDE":
    procmon_options["hide_output"] = True
elif stdout == "MIRROR":
    pass
```

`target_start_wait` is a Python float (here `ℚ`); `if target_start_wait:`
is Python truthiness, i.e. the value is nonzero. -/
def buildProcmonOptions (target_cmd : Option String) (target_start_wait : ℚ)
    (stdout : StdoutMode) : ProcmonOptions :=
  { start_commands := target_cmd.map fun c => [shlexSplit c]
    startup_wait := if target_start_wait ≠ 0 then some target_start_wait else none
    capture_output := if stdout = .capture then some true else none
    hide_output := if stdout = .hide then some true else none }

/-- Debugger backend classes: `DebuggerThreadSimple` and
`DebuggerThreadQemu` (modelled as inert constructors; their internals are
external collaborators). -/
inductive Debugger where
  | simple
  | qemu
deriving DecidableEq, Repr

/-- Constructor arguments of `ProcessMonitorLocal`, `cli.py` lines 126–132
(modelled as an inert record; the monitor's internals are an external
collaborator). -/
structure LocalProcmonConfig where
  crash_filename : String
  proc_name : Option String
  pid_to_ignore : Option Nat
  debugger_class : Debugger
  level : Nat
deriving DecidableEq, Repr

/-- A monitor handle as placed in the `monitors` list: either a
`ProcessMonitorLocal` or a remote `ProcessMonitor(host, port)`, each with
the options pushed by `procmon.set_options(**procmon_options)`. -/
inductive Monitor where
  | localMon (cfg : LocalProcmonConfig) (options : ProcmonOptions)
  | remoteMon (host : String) (port : Int) (options : ProcmonOptions)
deriving DecidableEq, Repr

/-- Construction of `local_procmon` and the `monitors` list, `cli.py`
lines 124–132 and 155–164.

```python
local_procmon = None
if target_cmd is not None and procmon_host is None:
    local_procmon = ProcessMonitorLocal(
        crash_filename="boofuzz-crash-bin", proc_name=None,
        pid_to_ignore=None, debugger_class=debugger, level=1)
...
if local_procmon is not None or procmon_host is not None:
    if procmon_host is not None:
        procmon = ProcessMonitor(procmon_host, procmon_port)
    else:
        procmon = local_procmon
    procmon.set_options(**procmon_options)
    monitors = [procmon]
else:
    procmon = None
    monitors = []
```

The `set_options` call is folded into the handle's `options` field. -/
def buildMonitors (target_cmd procmon_host : Option String) (procmon_port : Int)
    (opts : ProcmonOptions) (debugger : Debugger) : List Monitor :=
  let local_procmon : Option Monitor :=
    if target_cmd.isSome ∧ procmon_host.isNone then
      some (.localMon ⟨"boofuzz-crash-bin", none, none, debugger, 1⟩ opts)
    else none
  if local_procmon.isSome ∨ procmon_host.isSome then
    match procmon_host, local_procmon with
    | some h, _ => [.remoteMon h procmon_port opts]
    | none, some m => [m]
    | none, none => []
  else []

/-- A logging sink as placed in the `fuzz_loggers` list: `FuzzLoggerText`,
`FuzzLoggerCurses`, or `FuzzLoggerCsv` bound to an open file handle
(modelled by the name of the file the handle was opened on). -/
inductive FuzzLogger where
  | text
  | curses
  | csv (filename : String)
deriving DecidableEq, Repr

/-- The sink list together with the files opened while assembling it
(filename and mode, recording the `open(...)` side effect). -/
structure LoggerAssembly where
  sinks : List FuzzLogger
  openedFiles : List (String × String)
deriving DecidableEq, Repr

/-- Assembly of `fuzz_loggers`, `cli.py` lines 134–141.

```python
fuzz_loggers = []
if text_dump:
    fuzz_loggers.append(FuzzLoggerText())
elif tui:
    fuzz_loggers.append(FuzzLoggerCurses())
if csv_out is not None:
    f = open("boofuzz.csv", "wb")
    fuzz_loggers.append(FuzzLoggerCsv(file_handle=f))
```

Note the literal filename `"boofuzz.csv"`: the user-supplied `csv_out`
value is tested against `None` but never used as a path. -/
def assembleLoggers (text_dump tui : Bool) (csv_out : Option String) : LoggerAssembly :=
  let base : List FuzzLogger :=
    if text_dump then [.text] else if tui then [.curses] else []
  if csv_out.isSome then
    ⟨base ++ [.csv "boofuzz.csv"], [("boofuzz.csv", "wb")]⟩
  else
    ⟨base, []⟩

/-- How a resolution run ends early: `sys.exit(code)` after printing
`message` to stderr, or a Python exception of class `kind` propagating
uncaught out of `fuzz`. -/
inductive Failure where
  | exit (code : Nat) (message : String)
  | uncaught (kind : String)
deriving DecidableEq, Repr

/-- Python truthiness of the `QEMU_PATH` value (a string or `None`):
falsy exactly when `None` or the empty string. -/
def pyTruthyStrOpt : Option String → Bool
  | none => false
  | some s => ¬ s.isEmpty

/-- Debugger-backend selection, `cli.py` lines 110–123.

```python
if qemu:
    if platform.system() == "Windows":
        print("error: --qemu requires System V interface and is not currently supported on Windows",
              file=sys.stderr)
        sys.exit(1)
    if qemu_path is not None:
        debugger_thread_qemu.QEMU_PATH = qemu_path
    if not debugger_thread_qemu.QEMU_PATH:
        print("afl-qemu-trace not found. Is it available in PATH?", file=sys.stderr)
        sys.exit(1)
    debugger = DebuggerThreadQemu
else:
    debugger = DebuggerThreadSimple
```

`qemuPathState` is the process-wide `debugger_thread_qemu.QEMU_PATH` as
initialised at module import (modelled from the spec: the qemu debugger
module is not part of this source slice; per the spec it "looks in PATH by
default", so the state is `none`/empty when `afl-qemu-trace` is not
resolvable on the search path).  The result pairs the `QEMU_PATH` state
after this block with the outcome: the selected backend, or the fatal
exit. -/
def selectDebugger (qemu : Bool) (qemu_path : Option String) (platformSystem : String)
    (qemuPathState : Option String) : Option String × Except Failure Debugger :=
  if qemu then
    if platformSystem = "Windows" then
      (qemuPathState,
        .error (.exit 1
          "error: --qemu requires System V interface and is not currently supported on Windows"))
    else
      let st := if qemu_path.isSome then qemu_path else qemuPathState
      if ¬ pyTruthyStrOpt st then
        (st, .error (.exit 1 "afl-qemu-trace not found. Is it available in PATH?"))
      else
        (st, .ok .qemu)
  else
    (qemuPathState, .ok .simple)

/-- Modelled from the spec: `helpers.parse_target` (repository code not in
this source slice) — "host (string) + port (integer), parsed from a single
`HOST:PORT` string; invariant: port is numeric and in valid range;
malformed input is a configuration error".  `none` models the error. -/
def parseTarget (s : String) : Option (String × Int) :=
  match splitOnChar ':' s.data with
  | [h, p] =>
    match pyInt p with
    | some port => if 0 ≤ port ∧ port < 65536 then some (String.mk h, port) else none
    | none => none
  | _ => none

/-- The arguments of the `fuzz` click command that take part in
configuration resolution (`cli.py` lines 87–109); defaults follow the
option declarations. -/
structure FuzzArgs where
  target : String
  test_case_index : Option String := none
  csv_out : Option String := none
  sleep_between_cases : ℚ := 0
  procmon_host : Option String := none
  procmon_port : Int := 26002
  stdout : StdoutMode := .mirror
  tui : Bool := false
  text_dump : Bool := false
  target_cmd : Option String := none
  keep_web : Bool := true
  combinatorial : Bool := true
  record_passes : Int := 10
  qemu : Bool := false
  qemu_path : Option String := none
  web_port : Int := 26000
  restart_interval : Option Int := none
  target_start_wait : ℚ := 0
deriving DecidableEq, Repr

/-- Everything the `fuzz` command has resolved by the time the session is
constructed (`cli.py` lines 110–204): the selected debugger backend, the
process-wide `QEMU_PATH` after resolution, the monitor and sink lists, the
files opened, the procmon options, the mutation-depth limit, the resolved
index range, and the session parameters. -/
structure Resolution where
  debugger : Debugger
  qemuPath : Option String
  monitors : List Monitor
  fuzz_loggers : List FuzzLogger
  openedFiles : List (String × String)
  procmon_options : ProcmonOptions
  max_depth : Option Nat
  index_start : Int
  index_end : Option Int
  connection : String × Int
  sleep_time : ℚ
  keep_web_open : Bool
  record_passes : Int
  web_port : Int
  restart_interval : Option Int
deriving DecidableEq, Repr

/-- The configuration-resolution phase of the `fuzz` command, `cli.py`
lines 110–204, composed in source order: debugger selection, local-procmon
flag, logger assembly, procmon options, monitor list, mutation depth,
test-case range, target address, session parameters.  `platformSystem` is
`platform.system()` and `qemuPathState` the imported module's `QEMU_PATH`
(see `selectDebugger`).  An error result models the process exiting (or an
exception propagating) at the corresponding source line, before any later
object is constructed. -/
def fuzzResolve (a : FuzzArgs) (platformSystem : String) (qemuPathState : Option String) :
    Except Failure Resolution := do
  let (qemuPath, dbg) := selectDebugger a.qemu a.qemu_path platformSystem qemuPathState
  let debugger ← dbg
  let la := assembleLoggers a.text_dump a.tui a.csv_out
  let opts := buildProcmonOptions a.target_cmd a.target_start_wait a.stdout
  let monitors := buildMonitors a.target_cmd a.procmon_host a.procmon_port opts debugger
  let max_depth : Option Nat := if a.combinatorial then none else some 1
  let range ← match parseTestCaseIndex a.test_case_index with
    | some r => Except.ok r
    | none => Except.error (.uncaught "ValueError")
  let conn ← match parseTarget a.target with
    | some c => Except.ok c
    | none => Except.error (.uncaught "BoofuzzFailure")
  Except.ok
    { debugger := debugger
      qemuPath := qemuPath
      monitors := monitors
      fuzz_loggers := la.sinks
      openedFiles := la.openedFiles
      procmon_options := opts
      max_depth := max_depth
      index_start := range.1
      index_end := range.2
      connection := conn
      sleep_time := a.sleep_between_cases
      keep_web_open := a.keep_web
      record_passes := a.record_passes
      web_port := a.web_port
      restart_interval := a.restart_interval }

/-! ## Theorems for the claims -/

/-- C1: the test-case range parser maps its optional textual specifier as
follows: an absent specifier yields start = 1 and end = unbounded; a
specifier with no separator, `"N"`, yields start = end = N; a specifier
`"a-b"` with exactly one separator yields start = 1 when `a` is empty,
otherwise start = integer(a), and end = unbounded when `b` is empty,
otherwise end = integer(b) — so `"5-10"` gives {5,10}, `"-10"` gives
{1,10}, `"5-"` gives {5,unbounded}, and the both-empty `"-"` gives
{1,unbounded}. -/
theorem parseTestCaseIndex_spec :
    parseTestCaseIndex none = some (1, none)
    ∧ (∀ (s : String) (n : Int), splitOnChar '-' s.data = [s.data] →
        pyInt s.data = some n → parseTestCaseIndex (some s) = some (n, some n))
    ∧ (∀ (s : String) (a b : List Char) (x y : Int), splitOnChar '-' s.data = [a, b] →
        a ≠ [] → b ≠ [] → pyInt a = some x → pyInt b = some y →
        parseTestCaseIndex (some s) = some (x, some y))
    ∧ (∀ (s : String) (b : List Char) (y : Int), splitOnChar '-' s.data = [[], b] →
        b ≠ [] → pyInt b = some y → parseTestCaseIndex (some s) = some (1, some y))
    ∧ (∀ (s : String) (a : List Char) (x : Int), splitOnChar '-' s.data = [a, []] →
        a ≠ [] → pyInt a = some x → parseTestCaseIndex (some s) = some (x, none))
    ∧ (∀ (s : String), splitOnChar '-' s.data = [[], []] →
        parseTestCaseIndex (some s) = some (1, none))
    ∧ parseTestCaseIndex (some "5-10") = some (5, some 10)
    ∧ parseTestCaseIndex (some "-10") = some (1, some 10)
    ∧ parseTestCaseIndex (some "5-") = some (5, none)
    ∧ parseTestCaseIndex (some "-") = some (1, none) := by
  refine ⟨rfl, ?_, ?_, ?_, ?_, ?_, by decide, by decide, by decide, by decide⟩
  · intro s n hsplit hint
    simp [parseTestCaseIndex, hsplit, hint]
  · intro s a b x y hsplit ha hb hx hy
    simp [parseTestCaseIndex, hsplit, hx, hy, List.isEmpty_iff, ha, hb]
  · intro s b y hsplit hb hy
    simp [parseTestCaseIndex, hsplit, hy, List.isEmpty_iff, hb]
  · intro s a x hsplit ha hx
    simp [parseTestCaseIndex, hsplit, hx, List.isEmpty_iff, ha]
  · intro s hsplit
    simp [parseTestCaseIndex, hsplit]

/-- Witness for C1: concrete instances of each quantified case. -/
theorem parseTestCaseIndex_spec_witness :
    parseTestCaseIndex (some "7") = some (7, some 7)
    ∧ parseTestCaseIndex (some "3-8") = some (3, some 8)
    ∧ parseTestCaseIndex (some "-8") = some (1, some 8)
    ∧ parseTestCaseIndex (some "3-") = some (3, none)
    ∧ parseTestCaseIndex (some "-") = some (1, none) :=
  ⟨parseTestCaseIndex_spec.2.1 "7" 7 (by decide) (by decide),
   parseTestCaseIndex_spec.2.2.1 "3-8" ['3'] ['8'] 3 8 (by decide) (by decide) (by decide)
     (by decide) (by decide),
   parseTestCaseIndex_spec.2.2.2.1 "-8" ['8'] 8 (by decide) (by decide) (by decide),
   parseTestCaseIndex_spec.2.2.2.2.1 "3-" ['3'] 3 (by decide) (by decide) (by decide),
   parseTestCaseIndex_spec.2.2.2.2.2.1 "-" (by decide)⟩

/-- C10: a specifier whose split on the separator yields more than two
parts (two or more separator characters, e.g. `"1-5-9"`) is not parsed
into a range: the two-variable unpacking fails with an uncaught error and
the parser produces no result. -/
theorem multi_separator_rejected :
    ∀ (s : String) (parts : List (List Char)), splitOnChar '-' s.data = parts →
      2 < parts.length → parseTestCaseIndex (some s) = none := by
  intro s parts hsplit hlen
  match parts, hlen with
  | p1 :: p2 :: p3 :: rest, _ =>
    simp [parseTestCaseIndex, hsplit]

/-- Witness for C10: `"1-5-9"` splits into three parts and is rejected. -/
theorem multi_separator_rejected_witness :
    parseTestCaseIndex (some "1-5-9") = none :=
  multi_separator_rejected "1-5-9" [['1'], ['5'], ['9']] (by decide) (by decide)

/-- C8 counterexample: the specifier `"10-5"` is accepted by the range
parser with bounded end but start = 10 > end = 5, so the parser does not
guarantee start ≤ end. -/
theorem start_le_end_counterexample :
    parseTestCaseIndex (some "10-5") = some (10, some 5) ∧ ¬ ((10 : Int) ≤ 5) := by
  constructor
  · decide
  · decide

/-- C8 (amended): start ≤ end is guaranteed only for specifiers without a
separator, where start = end; for two-part specifiers the parser performs
no such check (see the counterexample `"10-5"`). -/
theorem start_le_end_no_separator :
    ∀ (s : String) (t : List Char) (st en : Int), splitOnChar '-' s.data = [t] →
      parseTestCaseIndex (some s) = some (st, some en) → st ≤ en := by
  intro s t st en hsplit hparse
  simp [parseTestCaseIndex, hsplit] at hparse
  obtain ⟨n, -, hn1, hn2⟩ := hparse
  omega

/-- Witness for C8 (amended): the separator-free specifier `"7"` yields
start = end = 7, hence start ≤ end. -/
theorem start_le_end_no_separator_witness : (7 : Int) ≤ 7 :=
  start_le_end_no_separator "7" ['7'] 7 7 (by decide) (by decide)

/-- C2: a monitor handle is attached iff a launch command (`--target-cmd`)
or a remote monitor host (`--procmon-host`) was specified; in that case
the monitor list contains exactly one handle — a remote handle when a
remote host is given, otherwise a local handle — and otherwise the list is
empty. -/
theorem monitors_iff_target_cmd_or_procmon_host :
    ∀ (tc ph : Option String) (pp : Int) (o : ProcmonOptions) (d : Debugger),
      (buildMonitors tc ph pp o d ≠ [] ↔ tc ≠ none ∨ ph ≠ none)
      ∧ (∀ h, ph = some h → buildMonitors tc ph pp o d = [.remoteMon h pp o])
      ∧ (ph = none → ∀ c, tc = some c →
          buildMonitors tc ph pp o d =
            [.localMon ⟨"boofuzz-crash-bin", none, none, d, 1⟩ o])
      ∧ (tc = none → ph = none → buildMonitors tc ph pp o d = []) := by
  intro tc ph pp o d
  cases tc <;> cases ph <;> simp [buildMonitors]

/-- Witness for C2: with a launch command and no remote host the list is
exactly one local handle; with neither it is empty. -/
theorem monitors_iff_target_cmd_or_procmon_host_witness :
    buildMonitors (some "./srv") none 26002 {} Debugger.simple =
      [Monitor.localMon ⟨"boofuzz-crash-bin", none, none, Debugger.simple, 1⟩ {}]
    ∧ buildMonitors none none 26002 {} Debugger.simple = [] :=
  ⟨(monitors_iff_target_cmd_or_procmon_host (some "./srv") none 26002 {}
      Debugger.simple).2.2.1 rfl "./srv" rfl,
   (monitors_iff_target_cmd_or_procmon_host none none 26002 {}
      Debugger.simple).2.2.2 rfl rfl⟩

/-- C5: for every combination of the text-dump/TUI flags, the sink list
contains a TextDump sink when text-dump is enabled (TUI then ignored: no
CursesTUI sink even when both are requested), a CursesTUI sink when only
TUI is enabled, and neither when both are off — for every `--csv-out`
value. -/
theorem sink_selection_text_dump_priority :
    ∀ (td tu : Bool) (co : Option String),
      (td = true → FuzzLogger.text ∈ (assembleLoggers td tu co).sinks
        ∧ FuzzLogger.curses ∉ (assembleLoggers td tu co).sinks)
      ∧ (td = false → tu = true → FuzzLogger.curses ∈ (assembleLoggers td tu co).sinks
        ∧ FuzzLogger.text ∉ (assembleLoggers td tu co).sinks)
      ∧ (td = false → tu = false → FuzzLogger.text ∉ (assembleLoggers td tu co).sinks
        ∧ FuzzLogger.curses ∉ (assembleLoggers td tu co).sinks) := by
  intro td tu co
  cases td <;> cases tu <;> cases co <;> simp [assembleLoggers]

/-- Witness for C5: with both flags requested the list holds a TextDump
sink and no CursesTUI sink. -/
theorem sink_selection_text_dump_priority_witness :
    FuzzLogger.text ∈ (assembleLoggers true true none).sinks
    ∧ FuzzLogger.curses ∉ (assembleLoggers true true none).sinks :=
  (sink_selection_text_dump_priority true true none).1 rfl

/-- C6: for every non-absent `--csv-out` argument, the file opened is the
fixed name `boofuzz.csv` in binary-write mode, regardless of the supplied
path, and a CSV sink bound to that handle is appended; with `--csv-out`
absent no file is opened and no CSV sink is appended. -/
theorem csv_out_fixed_filename :
    ∀ (td tu : Bool) (p : String),
      ((assembleLoggers td tu (some p)).openedFiles = [("boofuzz.csv", "wb")])
      ∧ ((assembleLoggers td tu (some p)).sinks =
          (assembleLoggers td tu none).sinks ++ [FuzzLogger.csv "boofuzz.csv"])
      ∧ ((assembleLoggers td tu none).openedFiles = [])
      ∧ (∀ f, FuzzLogger.csv f ∉ (assembleLoggers td tu none).sinks) := by
  intro td tu p
  cases td <;> cases tu <;> simp [assembleLoggers]

/-- Witness for C6: a user-supplied path `out/run.csv` still opens
`boofuzz.csv`. -/
theorem csv_out_fixed_filename_witness :
    (assembleLoggers false false (some "out/run.csv")).openedFiles =
      [("boofuzz.csv", "wb")]
    ∧ (assembleLoggers false false none).openedFiles = [] :=
  ⟨(csv_out_fixed_filename false false "out/run.csv").1,
   (csv_out_fixed_filename false false "out/run.csv").2.2.1⟩

/-- C3: with the QEMU flag set on Windows, resolution stops at once with
the user-facing error and exit code 1: no session, monitor, logger or
connection is constructed (the resolution result is the error, not a
configuration), and no other resolution step runs (in particular the
process-wide tool path is left untouched). -/
theorem qemu_on_windows_exits_1 :
    ∀ (a : FuzzArgs) (ps : String) (st : Option String),
      a.qemu = true → ps = "Windows" →
        fuzzResolve a ps st =
          .error (.exit 1
            "error: --qemu requires System V interface and is not currently supported on Windows")
        ∧ (selectDebugger a.qemu a.qemu_path ps st).1 = st := by
  intro a ps st hq hps
  subst hps
  constructor
  · simp [fuzzResolve, selectDebugger, hq, Bind.bind, Except.bind]
  · simp [selectDebugger, hq]

/-- Witness for C3: a concrete argument record with `--qemu` on Windows. -/
theorem qemu_on_windows_exits_1_witness :
    fuzzResolve { target := "127.0.0.1:9999", qemu := true } "Windows" none =
      .error (.exit 1
        "error: --qemu requires System V interface and is not currently supported on Windows") :=
  (qemu_on_windows_exits_1 { target := "127.0.0.1:9999", qemu := true }
    "Windows" none rfl rfl).1

/-- C4: with the QEMU flag set, if no override is given and no
afl-qemu-trace tool is resolvable (the process-wide path is falsy), the
run exits with code 1 — off Windows with the descriptive
"afl-qemu-trace not found" message, and on any platform with exit code 1;
when an override path is given (and the Windows check does not fire
first), it is recorded as the process-wide tool path consumed by the
backend. -/
theorem qemu_path_resolution :
    ∀ (a : FuzzArgs) (ps : String) (st : Option String), a.qemu = true →
      (a.qemu_path = none → pyTruthyStrOpt st = false →
        ∃ m, fuzzResolve a ps st = .error (.exit 1 m))
      ∧ (a.qemu_path = none → pyTruthyStrOpt st = false → ps ≠ "Windows" →
        fuzzResolve a ps st =
          .error (.exit 1 "afl-qemu-trace not found. Is it available in PATH?"))
      ∧ (∀ p, a.qemu_path = some p → ps ≠ "Windows" →
        (selectDebugger a.qemu a.qemu_path ps st).1 = some p) := by
  intro a ps st hq
  refine ⟨?_, ?_, ?_⟩
  · intro hqp hst
    by_cases hw : ps = "Windows"
    · exact ⟨_, (qemu_on_windows_exits_1 a ps st hq hw).1⟩
    · refine ⟨"afl-qemu-trace not found. Is it available in PATH?", ?_⟩
      simp [fuzzResolve, selectDebugger, hq, hqp, hst, hw, Bind.bind, Except.bind]
  · intro hqp hst hw
    simp [fuzzResolve, selectDebugger, hq, hqp, hst, hw, Bind.bind, Except.bind]
  · intro p hp hw
    simp [selectDebugger, hq, hp, hw]
    split <;> rfl

/-- Witness for C4: on Linux with no override and an unresolvable tool the
run exits 1 with the descriptive message; with an override `/usr/bin/aqt`
the process-wide path records the override. -/
theorem qemu_path_resolution_witness :
    fuzzResolve { target := "127.0.0.1:9999", qemu := true } "Linux" none =
      .error (.exit 1 "afl-qemu-trace not found. Is it available in PATH?")
    ∧ (selectDebugger true (some "/usr/bin/aqt") "Linux" none).1 =
        some "/usr/bin/aqt" :=
  ⟨(qemu_path_resolution { target := "127.0.0.1:9999", qemu := true }
      "Linux" none rfl).2.1 rfl rfl (by decide),
   (qemu_path_resolution
      { target := "127.0.0.1:9999", qemu := true, qemu_path := some "/usr/bin/aqt" }
      "Linux" none rfl).2.2 "/usr/bin/aqt" rfl (by decide)⟩

/-- C9: with the QEMU flag unset, the Simple backend is selected for every
platform, override and process-wide path state, the tool path is left
unchanged, and no exit-code path is reachable: resolution never produces a
`sys.exit` failure (any later failure is an uncaught exception, not an
exit). -/
theorem no_qemu_selects_simple :
    ∀ (a : FuzzArgs) (ps : String) (st : Option String), a.qemu = false →
      selectDebugger a.qemu a.qemu_path ps st = (st, .ok .simple)
      ∧ ∀ (c : Nat) (m : String), fuzzResolve a ps st ≠ .error (.exit c m) := by
  intro a ps st hq
  constructor
  · simp [selectDebugger, hq]
  · intro c m
    simp only [fuzzResolve, selectDebugger, hq, if_false, Bind.bind, Except.bind]
    cases hpi : parseTestCaseIndex a.test_case_index <;>
      cases hpt : parseTarget a.target <;> simp

/-- Witness for C9: without `--qemu` the Simple backend is selected on
Windows too, and resolution does not exit. -/
theorem no_qemu_selects_simple_witness :
    selectDebugger false none "Windows" none = (none, .ok .simple)
    ∧ fuzzResolve { target := "127.0.0.1:9999" } "Windows" none ≠
        .error (.exit 1 "x") :=
  ⟨(no_qemu_selects_simple { target := "127.0.0.1:9999" } "Windows" none rfl).1,
   (no_qemu_selects_simple { target := "127.0.0.1:9999" } "Windows" none rfl).2 1 "x"⟩

/-- C7 counterexample: a settle-wait of −1 is not positive, yet
`startup_wait` is set (the source tests Python truthiness, i.e. the value
being nonzero, not positivity). -/
theorem startup_wait_positive_counterexample :
    (buildProcmonOptions none (-1) StdoutMode.mirror).startup_wait = some (-1)
    ∧ ¬ ((0 : ℚ) < -1) := by
  constructor
  · decide
  · decide

/-- C7 (amended): `start_commands` is set only when a launch command was
given, to the one-element list holding the command split by shell-quoting
rules; `startup_wait` is set — to the requested value — exactly when a
nonzero (not: positive) settle-wait was requested; stdout CAPTURE sets
`capture_output = true` leaving `hide_output` unset, HIDE sets
`hide_output = true` leaving `capture_output` unset, and MIRROR sets
neither; the spec's example `--target-cmd "mybinary --flag" --stdout
CAPTURE` gives `start_commands = [["mybinary", "--flag"]]` with output
captured and not hidden. -/
theorem procmon_options_spec :
    ∀ (tc : Option String) (w : ℚ) (sm : StdoutMode),
      ((buildProcmonOptions tc w sm).start_commands = none ↔ tc = none)
      ∧ (∀ c, tc = some c →
          (buildProcmonOptions tc w sm).start_commands = some [shlexSplit c])
      ∧ ((buildProcmonOptions tc w sm).startup_wait = some w ↔ w ≠ 0)
      ∧ (w = 0 → (buildProcmonOptions tc w sm).startup_wait = none)
      ∧ (sm = .capture → (buildProcmonOptions tc w sm).capture_output = some true
          ∧ (buildProcmonOptions tc w sm).hide_output = none)
      ∧ (sm = .hide → (buildProcmonOptions tc w sm).hide_output = some true
          ∧ (buildProcmonOptions tc w sm).capture_output = none)
      ∧ (sm = .mirror → (buildProcmonOptions tc w sm).capture_output = none
          ∧ (buildProcmonOptions tc w sm).hide_output = none)
      ∧ buildProcmonOptions (some "mybinary --flag") 0 StdoutMode.capture =
          { start_commands := some [["mybinary", "--flag"]],
            startup_wait := none,
            capture_output := some true,
            hide_output := none } := by
  intro tc w sm
  refine ⟨?_, ?_, ?_, ?_, ?_, ?_, ?_, by decide⟩
  · cases tc <;> simp [buildProcmonOptions]
  · intro c hc
    simp [buildProcmonOptions, hc]
  · by_cases hw : w = 0 <;> simp [buildProcmonOptions, hw]
  · intro hw
    simp [buildProcmonOptions, hw]
  · intro hsm
    subst hsm
    exact ⟨by simp [buildProcmonOptions], by simp [buildProcmonOptions]⟩
  · intro hsm
    subst hsm
    exact ⟨by simp [buildProcmonOptions], by simp [buildProcmonOptions]⟩
  · intro hsm
    subst hsm
    exact ⟨by simp [buildProcmonOptions], by simp [buildProcmonOptions]⟩

/-- Witness for C7 (amended): the spec's example instantiated through the
theorem, and the nonzero condition at wait = 2. -/
theorem procmon_options_spec_witness :
    (buildProcmonOptions (some "mybinary --flag") 2 StdoutMode.capture).start_commands =
      some [["mybinary", "--flag"]]
    ∧ (buildProcmonOptions (some "mybinary --flag") 2 StdoutMode.capture).startup_wait =
        some 2
    ∧ (buildProcmonOptions (some "mybinary --flag") 2 StdoutMode.capture).capture_output =
        some true
    ∧ (buildProcmonOptions (some "mybinary --flag") 2 StdoutMode.capture).hide_output =
        none :=
  ⟨by
    have h := (procmon_options_spec (some "mybinary --flag") 2 StdoutMode.capture).2.1
      "mybinary --flag" rfl
    rw [h]
    decide,
   (procmon_options_spec (some "mybinary --flag") 2 StdoutMode.capture).2.2.1.mpr
     (by decide),
   ((procmon_options_spec (some "mybinary --flag") 2 StdoutMode.capture).2.2.2.2.1
     rfl).1,
   ((procmon_options_spec (some "mybinary --flag") 2 StdoutMode.capture).2.2.2.2.1
     rfl).2⟩

end Boofuzz
